import Mathlib

/-!
Verification of the `AyushM198/Image_model` repository against its
natural-language specification.

The visible source is `src/app.py`, the Flask web layer: upload validation,
extension-based dispatch, and the `/analyze` handler.  The detection engine
(`model.py`, class `HybridDeepFakeDetector`) is not part of the visible
source; where a claim depends on engine behaviour, the engine is modelled
from the specification (those definitions say so in their doc comments).

Numeric scores are embedded as rationals (`ℚ`), modelling the real-valued
arithmetic of the handler; where rounding of Python's IEEE doubles is
itself at issue, binary64 arithmetic is modelled exactly by `F64`.
Engine methods are fallible and return
`Except EngineError _`, modelling Python exceptions caught by the handler's
`try`/`except` block.
-/

namespace ImageModel

/-- `UPLOAD_FOLDER` constant of app.py (line 9). -/
def UPLOAD_FOLDER : String := "static/uploads"

/-- `PROCESSED_FOLDER` constant of app.py (line 10). -/
def PROCESSED_FOLDER : String := "static/processed"

/-- `ALLOWED_EXTENSIONS` of app.py (line 11). -/
def ALLOWED_EXTENSIONS : List String := ["png", "jpg", "jpeg", "pdf"]

/-- Characters after the last `'.'` of the list; `[]` when there is no dot.
Embeds Python `filename.rsplit('.', 1)[1]` (the guard `'.' in filename`
is checked separately, as in app.py line 25). -/
def extChars : List Char → List Char
  | [] => []
  | c :: rest => if c == '.' && !(rest.contains '.') then rest else extChars rest

/-- `filename.rsplit('.', 1)[1].lower()` (app.py lines 25 and 52). -/
def extOf (s : String) : String :=
  String.mk ((extChars s.data).map Char.toLower)

/-- Python `'.' in filename`. -/
def hasDot (s : String) : Bool := s.data.contains '.'

/-- `allowed_file` of app.py (lines 24-25). -/
def allowed_file (filename : String) : Bool :=
  hasDot filename && ALLOWED_EXTENSIONS.contains (extOf filename)

/-- Characters after the last `'/'`; the whole list when there is no slash.
Embeds `os.path.basename` for the POSIX paths the handler builds. -/
def baseChars : List Char → List Char
  | [] => []
  | c :: rest => if (c :: rest).contains '/' then baseChars rest else c :: rest

/-- `os.path.basename` as used on artifact paths (app.py lines 65, 67, 91, 105). -/
def basename (p : String) : String := String.mk (baseChars p.data)

/-- `url_for('static', filename=...)` resolves to a path under `/static/`. -/
def staticUrl (filename : String) : String := "/static/" ++ filename

/-- `os.path.join(app.config['UPLOAD_FOLDER'], filename)` (app.py line 49). -/
def uploadPathOf (filename : String) : String := UPLOAD_FOLDER ++ "/" ++ filename

/-- An engine-level failure: a Python exception raised inside one of the
detector calls, carrying its implementation-specific message. -/
structure EngineError where
  message : String
deriving Repr, DecidableEq

/-- One entry of the list returned by `detector.analyze_pdf_forgery`
(consumed by app.py lines 63-67; field names follow the dict keys). -/
structure PdfPageEntry where
  page_number : Nat
  forgery_score : ℚ
  verdict : String
  original_page_image_path : Option String
  analyzed_image_path : Option String
deriving Repr, DecidableEq

/-- The `HybridDeepFakeDetector` interface as called by app.py: three engine
entry points, each taking an input path and an output directory.  The class
body lives in `model.py`, which is not part of the visible source, so the
detector is embedded as a record of its call contract. -/
structure HybridDeepFakeDetector where
  predict_image_deepfake : String → String → Except EngineError (ℚ × Option String)
  analyze_document_forgery : String → String → Except EngineError (ℚ × String × Option String)
  analyze_pdf_forgery : String → String → Except EngineError (List PdfPageEntry)

/-- An inbound `/analyze` request: presence of the `file` part, the raw
uploaded filename, and the `analysis_type` form field (`""` models a missing
field, which Python's `if not analysis_type` treats like the empty string). -/
structure Request where
  hasFilePart : Bool
  filename : String
  analysis_type : String
deriving Repr, DecidableEq

/-- A PDF page entry as returned to the frontend: the engine entry plus the
URLs computed by app.py lines 63-67. -/
structure PdfDisplayEntry where
  entry : PdfPageEntry
  original_image_url : Option String
  analyzed_image_url : Option String
deriving Repr, DecidableEq

/-- The JSON responses the `/analyze` handler can produce.  Scores are kept
as rationals: the `f"{x:.2f}"` string formatting of app.py is display-only
and outside the model. -/
inductive Response where
  | error (message : String) (status : Nat)
  | imageResult (verdict : String) (real_score fake_score : ℚ) (explanation : String)
      (original_image_url : String) (analyzed_image_url : Option String)
  | documentResult (verdict : String) (forgery_score : ℚ) (explanation : String)
      (original_image_url : String) (analyzed_image_url : Option String)
  | pdfResult (results : List PdfDisplayEntry) (original_filename : String)
deriving Repr, DecidableEq

/-- The engine operations the handler can invoke, in invocation order. -/
inductive EngineCall where
  | pdfCall
  | imageCall
  | documentCall
deriving Repr, DecidableEq

/-- The generic 500 response of app.py line 113. -/
def internalServerError : Response :=
  Response.error "An internal error occurred during processing. Please try again." 500

/-- Verdict computation of app.py line 81: strict threshold at 0.5. -/
def imageVerdict (probability : ℚ) : String :=
  if probability > 1/2 then "DeepFake Detected" else "Likely Authentic"

/-- Explanation computation of app.py line 82. -/
def imageExplanation (probability : ℚ) : String :=
  if probability > 1/2 then
    "The model detected subtle artifacts consistent with AI-generated images."
  else
    "The model did not find significant evidence of AI manipulation."

/-- Explanation computation of app.py line 97. -/
def documentExplanation (verdict : String) : String :=
  if verdict = "Suspicious Forgery" then
    "ELA detected inconsistencies in JPEG compression levels, suggesting a potential digital modification."
  else
    "The document's compression levels appear consistent, indicating it is likely unmodified."

/-- URL computation applied to each PDF page entry (app.py lines 63-67). -/
def displayEntry (r : PdfPageEntry) : PdfDisplayEntry :=
  { entry := r
    original_image_url := r.original_page_image_path.map
      (fun p => staticUrl ("processed/" ++ basename p))
    analyzed_image_url := r.analyzed_image_path.map
      (fun p => staticUrl ("processed/" ++ basename p)) }

/-- The `/analyze` handler of app.py (lines 32-115).  `sf` embeds werkzeug's
`secure_filename` (an external sanitizer, kept abstract); the second
component records which engine operations were invoked.  The score
arithmetic of lines 79-80 appears here as exact rationals; the source
computes it in IEEE doubles, whose rounding is modelled exactly by the
`F64` definitions below and matters only to the exact-sum identity
(claim C10), not to any comparison or dispatch in this handler. -/
def analyze (d : HybridDeepFakeDetector) (sf : String → String) (req : Request) :
    Response × List EngineCall :=
  if req.hasFilePart = false then
    (Response.error "No file part in the request." 400, [])
  else if req.filename = "" then
    (Response.error "No file selected." 400, [])
  else if req.analysis_type = "" then
    (Response.error "No analysis type selected." 400, [])
  else if allowed_file req.filename then
    if extOf (sf req.filename) = "pdf" then
      if req.analysis_type = "image" then
        (Response.error "DeepFake analysis is for images (JPG, PNG), not PDFs." 400, [])
      else
        match d.analyze_pdf_forgery (uploadPathOf (sf req.filename)) PROCESSED_FOLDER with
        | Except.ok pdf_results =>
            (Response.pdfResult (pdf_results.map displayEntry) (sf req.filename),
             [EngineCall.pdfCall])
        | Except.error _ => (internalServerError, [EngineCall.pdfCall])
    else if req.analysis_type = "image" then
      match d.predict_image_deepfake (uploadPathOf (sf req.filename)) PROCESSED_FOLDER with
      | Except.ok (probability, highlighted_path) =>
          (Response.imageResult (imageVerdict probability)
            ((1 - probability) * 100) (probability * 100)
            (imageExplanation probability)
            (staticUrl ("uploads/" ++ sf req.filename))
            (highlighted_path.map (fun p => staticUrl ("processed/" ++ basename p))),
           [EngineCall.imageCall])
      | Except.error _ => (internalServerError, [EngineCall.imageCall])
    else if req.analysis_type = "document" then
      match d.analyze_document_forgery (uploadPathOf (sf req.filename)) PROCESSED_FOLDER with
      | Except.ok result =>
          (Response.documentResult result.2.1 result.1
            (documentExplanation result.2.1)
            (staticUrl ("uploads/" ++ sf req.filename))
            (result.2.2.map (fun p => staticUrl ("processed/" ++ basename p))),
           [EngineCall.documentCall])
      | Except.error _ => (internalServerError, [EngineCall.documentCall])
    else
      (Response.error "Invalid analysis type specified." 400, [])
  else
    (Response.error "Invalid file type." 400, [])

/-!
The detection engine (`model.py`) is absent from the visible source; the
definitions below model it from the specification, as their doc comments
state.  Images are grayscale byte buffers: lists of pixel values in 0..255.
-/

/-- Modelled from the spec (§4.2): the fixed lossy recompression quality
used by the ELA engine; `model.py` is not in the visible source. -/
def ELA_QUALITY : Nat := 90

/-- Modelled from the spec (§4.2): the fixed amplification scale factor of
the ELA engine. -/
def ELA_SCALE : ℚ := 15

/-- Modelled from the spec (§4.2): the named, configurable forgery
threshold `T`; the single place the suspicious/authentic cut is defined. -/
def FORGERY_THRESHOLD : ℚ := 25

/-- Modelled from the spec (§4.2): re-encoding the image at a fixed lossy
quality.  Lossiness is modelled as quantization of each pixel to a step
size determined by the quality constant. -/
def recompress (quality : Nat) (img : List Nat) : List Nat :=
  img.map (fun v => v / (101 - quality) * (101 - quality))

/-- Modelled from the spec (§4.2): per-pixel absolute difference between
the original and the recompressed image, amplified by the scale factor. -/
def errorMap (quality : Nat) (scale : ℚ) (img : List Nat) : List ℚ :=
  (img.zip (recompress quality img)).map
    (fun ab => scale * |(ab.1 : ℚ) - (ab.2 : ℚ)|)

/-- Modelled from the spec (§4.2): the aggregate metric — mean amplified
error, clamped into `[0, 100]`. -/
def elaScore (quality : Nat) (scale : ℚ) (img : List Nat) : ℚ :=
  min 100 (max 0
    (if (errorMap quality scale img).length = 0 then 0
     else (errorMap quality scale img).sum / (errorMap quality scale img).length))

/-- Modelled from the spec (§4.2): verdict is `Suspicious Forgery` exactly
when the score strictly exceeds `FORGERY_THRESHOLD` (the strings are the
ones app.py line 97 compares against). -/
def forgeryVerdict (score : ℚ) : String :=
  if score > FORGERY_THRESHOLD then "Suspicious Forgery" else "Likely Authentic"

/-- Modelled from the spec (§4.2, §4.4): the analyzed artifact bytes — the
amplified error map rendered to a byte image (clamped to 255). -/
def elaArtifact (quality : Nat) (scale : ℚ) (img : List Nat) : List Nat :=
  (errorMap quality scale img).map (fun e => min 255 e.floor.toNat)

/-- Modelled from the spec (§4.4): deterministic artifact name for the ELA
heatmap of a given input name. -/
def elaArtifactName (name : String) : String := name ++ "_ela.png"

/-- Modelled from the spec (§4.4): deterministic artifact name for the
rasterized page `i` of a given input name. -/
def pageArtifactName (name : String) (i : Nat) : String :=
  name ++ "_page_" ++ toString i ++ ".png"

/-- Modelled from the spec (§4.2): `analyzeDocumentForgery(path, outDir)`,
returning `(score, verdict, analyzedPath)`. -/
def analyze_document_forgery_spec (img : List Nat) (outDir name : String) :
    ℚ × String × Option String :=
  (elaScore ELA_QUALITY ELA_SCALE img,
   forgeryVerdict (elaScore ELA_QUALITY ELA_SCALE img),
   some (outDir ++ "/" ++ elaArtifactName name))

set_option linter.unusedVariables false in
/-- Modelled from the spec (§4.2, determinism): one run of the document
analysis.  `run` stands for the ambient run context (clock, process state)
that a rerun changes; the output is the score, the verdict and the bytes of
the analyzed artifact that the run writes. -/
def documentAnalysisRun (run : Nat) (img : List Nat) (outDir name : String) :
    ℚ × String × String × List Nat :=
  (elaScore ELA_QUALITY ELA_SCALE img,
   forgeryVerdict (elaScore ELA_QUALITY ELA_SCALE img),
   outDir ++ "/" ++ elaArtifactName name,
   elaArtifact ELA_QUALITY ELA_SCALE img)

/-- Modelled from the spec (§4.3): per-page loop of the PDF orchestrator.
Pages are processed in order; page `i` (1-indexed, carried by the first
`Nat` argument) is rasterized, persisted as the original-page artifact and
fed to the ELA engine. -/
def analyzePages {Page : Type} (rasterize : Page → List Nat)
    (outDir name : String) : Nat → List Page → List PdfPageEntry
  | _, [] => []
  | i, page :: rest =>
      { page_number := i
        forgery_score := elaScore ELA_QUALITY ELA_SCALE (rasterize page)
        verdict := forgeryVerdict (elaScore ELA_QUALITY ELA_SCALE (rasterize page))
        original_page_image_path := some (outDir ++ "/" ++ pageArtifactName name i)
        analyzed_image_path :=
          some (outDir ++ "/" ++ elaArtifactName (pageArtifactName name i)) }
        :: analyzePages rasterize outDir name (i + 1) rest

/-- Modelled from the spec (§4.3): `analyzePdfForgery(pdfPath, outDir)`.
A PDF is its list of pages (abstract type `Page`); `rasterize` is the
fixed-resolution PDF rasterizer component. -/
def analyze_pdf_forgery_spec {Page : Type} (rasterize : Page → List Nat)
    (pages : List Page) (outDir name : String) : List PdfPageEntry :=
  analyzePages rasterize outDir name 1 pages

/-!
Process lifecycle: app.py constructs the detector once at module load
(line 22) and every request handler reads that shared object.
-/

/-- Process-wide application state: the shared detector object and a count
of how many times detector weights have been loaded (constructions of
`HybridDeepFakeDetector`). -/
structure AppState where
  detector : HybridDeepFakeDetector
  detectorLoads : Nat

/-- Process startup (app.py line 22): the single detector construction. -/
def initApp (weights : HybridDeepFakeDetector) : AppState :=
  { detector := weights, detectorLoads := 1 }

/-- Handling one request: the handler calls `analyze` with the shared
detector; app.py never rebinds or mutates `detector`, so the state after
the request is the state before it. -/
def handleRequest (sf : String → String) (s : AppState) (req : Request) :
    (Response × List EngineCall) × AppState :=
  (analyze s.detector sf req, s)

/-- Serving a sequence of requests from a given state. -/
def serve (sf : String → String) (s : AppState) : List Request → AppState
  | [] => s
  | req :: rest => serve sf (handleRequest sf s req).2 rest

/-- Modelled from the spec (§4.1): `model.py` is not in the visible source,
so the engine guarantee that `predict_image_deepfake` returns a scalar
manipulation probability in `[0,1]` is taken from the spec contract. -/
def SpecConformantDetector (d : HybridDeepFakeDetector) : Prop :=
  ∀ path outDir p hp,
    d.predict_image_deepfake path outDir = Except.ok (p, hp) → 0 ≤ p ∧ p ≤ 1

/-- The specific validation rejections of app.py (lines 42, 45, 115): the
400 responses produced before any engine call (the line-36 missing-file-part
rejection needs no filename and is outside this list). -/
def validationErrors : List Response :=
  [Response.error "No file selected." 400,
   Response.error "No analysis type selected." 400,
   Response.error "Invalid file type." 400]

/-- A concrete detector instantiating the theorems: every engine call
succeeds with fixed results. -/
def demoDetector : HybridDeepFakeDetector where
  predict_image_deepfake := fun _ _ =>
    Except.ok (3/10, some "static/processed/img_highlight.png")
  analyze_document_forgery := fun _ _ =>
    Except.ok (12, "Likely Authentic", some "static/processed/doc_ela.png")
  analyze_pdf_forgery := fun _ _ => Except.ok []

/-- A concrete detector whose engine calls all raise. -/
def failingDetector : HybridDeepFakeDetector where
  predict_image_deepfake := fun _ _ => Except.error ⟨"cuda out of memory"⟩
  analyze_document_forgery := fun _ _ => Except.error ⟨"decode failure"⟩
  analyze_pdf_forgery := fun _ _ => Except.error ⟨"pdf parse failure"⟩

/-- A concrete three-page PDF (pages already given as raster buffers). -/
def demoPdfPages : List (List Nat) := [[10, 20], [30], []]

/-!
IEEE binary64 arithmetic.  app.py computes its scores in Python floats;
the handler embedding above idealizes them as exact rationals, which is
rounding-faithful for every comparison and formula in claims C1-C9 but not
for the exact-sum identity of claim C10.  The definitions below model
double precision exactly: a float is its exact mantissa-exponent pair, and
each operation correctly rounds the exact result to a 53-bit significand,
nearest, ties to even (normal range — overflow and subnormals do not arise
for the values in this file).
-/

/-- A Python float (IEEE binary64 value) in exact form: the rational
`m * 2 ^ e`, with integer mantissa `m` and exponent `e`. -/
structure F64 where
  m : Int
  e : Int
deriving Repr, DecidableEq

/-- The exact rational value of a binary64 number. -/
def F64.toRat (a : F64) : ℚ :=
  if 0 ≤ a.e then (a.m : ℚ) * ((2 ^ a.e.toNat : Nat) : ℚ)
  else (a.m : ℚ) / ((2 ^ (-a.e).toNat : Nat) : ℚ)

/-- Binary bit length of a natural number, with an explicit unfolding
bound (first argument); 5000 bits amply covers every value arising from
binary64 arithmetic in this file. -/
def bitLen : Nat → Nat → Nat
  | 0, _ => 0
  | fuel + 1, n => if n = 0 then 0 else bitLen fuel (n / 2) + 1

/-- Bit length of a natural number (`0` has length `0`). -/
def natBits (n : Nat) : Nat := bitLen 5000 n

/-- IEEE-754 binary64 rounding of the exact value `M * 2 ^ E`: round to
nearest with a 53-bit significand, ties to even.  A mantissa of at most 53
bits is exact; otherwise the excess low bits are rounded away. -/
def rnd64 (M E : Int) : F64 :=
  if M = 0 then ⟨0, 0⟩
  else if natBits M.natAbs ≤ 53 then ⟨M, E⟩
  else
    let s := natBits M.natAbs - 53
    let d : Int := ((2 ^ s : Nat) : Int)
    let q := Int.ediv M d
    let r := Int.emod M d
    let m :=
      if 2 * r < d then q
      else if d < 2 * r then q + 1
      else if Int.emod q 2 = 0 then q else q + 1
    ⟨m, E + (s : Int)⟩

/-- Double-precision addition: the correctly rounded exact sum. -/
def F64.add (a b : F64) : F64 :=
  if a.e ≤ b.e then rnd64 (a.m + b.m * ((2 ^ (b.e - a.e).toNat : Nat) : Int)) a.e
  else rnd64 (a.m * ((2 ^ (a.e - b.e).toNat : Nat) : Int) + b.m) b.e

/-- Double-precision subtraction: the correctly rounded exact difference. -/
def F64.sub (a b : F64) : F64 :=
  if a.e ≤ b.e then rnd64 (a.m - b.m * ((2 ^ (b.e - a.e).toNat : Nat) : Int)) a.e
  else rnd64 (a.m * ((2 ^ (a.e - b.e).toNat : Nat) : Int) - b.m) b.e

/-- Double-precision multiplication: the correctly rounded exact product. -/
def F64.mul (a b : F64) : F64 := rnd64 (a.m * b.m) (a.e + b.e)

/-- app.py line 79, `real_score = (1 - probability) * 100`, under Python
float (IEEE binary64) semantics. -/
def real_score_f64 (p : F64) : F64 := F64.mul (F64.sub ⟨1, 0⟩ p) ⟨100, 0⟩

/-- app.py line 80, `fake_score = probability * 100`, under Python float
semantics. -/
def fake_score_f64 (p : F64) : F64 := F64.mul p ⟨100, 0⟩

/-- The double `0x1.b7cdfd9d7b5ebp-34` (≈ 1.0e-10): a machine-representable
probability inside `[0,1]`. -/
def p0 : F64 := ⟨7737125245531627, -86⟩

/-!
Theorems.  One main theorem per claim C1-C10, with helper lemmas and,
where a theorem carries hypotheses, a closed witness instantiating it.
-/

/-- The demo detector honours the spec contract on probabilities. -/
theorem demoDetector_conformant : SpecConformantDetector demoDetector := by
  intro path outDir p hp h
  simp only [demoDetector, Except.ok.injEq, Prod.mk.injEq] at h
  obtain ⟨h1, -⟩ := h
  subst h1
  norm_num

/-- Claim C1: for every valid image analyzed through the image branch, the
returned probability lies in `[0,1]` (engine contract, modelled from the
spec since `model.py` is absent) and the reported verdict is
"DeepFake Detected" exactly when the probability strictly exceeds 0.5;
probability exactly 0.5 yields "Likely Authentic". -/
theorem c1_image_probability_and_verdict
    (d : HybridDeepFakeDetector) (sf : String → String) (req : Request)
    (p : ℚ) (hp : Option String)
    (hd : SpecConformantDetector d)
    (hfile : req.hasFilePart = true)
    (hname : req.filename ≠ "")
    (hallowed : allowed_file req.filename = true)
    (hext : extOf (sf req.filename) ≠ "pdf")
    (htype : req.analysis_type = "image")
    (hengine : d.predict_image_deepfake (uploadPathOf (sf req.filename)) PROCESSED_FOLDER
      = Except.ok (p, hp)) :
    (0 ≤ p ∧ p ≤ 1) ∧
    (analyze d sf req).1 =
      Response.imageResult (imageVerdict p) ((1 - p) * 100) (p * 100)
        (imageExplanation p) (staticUrl ("uploads/" ++ sf req.filename))
        (hp.map fun q => staticUrl ("processed/" ++ basename q)) ∧
    (imageVerdict p = "DeepFake Detected" ↔ p > 1/2) ∧
    (p = 1/2 → imageVerdict p = "Likely Authentic") := by
  refine ⟨hd _ _ _ _ hengine, ?_, ?_, ?_⟩
  · simp [analyze, hfile, hname, htype, hallowed, hext, hengine]
  · unfold imageVerdict
    split
    · simpa using ‹p > 1/2›
    · simp_all
  · intro hhalf
    subst hhalf
    simp [imageVerdict]

/-- Witness for C1 at a concrete request and detector. -/
theorem c1_witness :
    ((0 : ℚ) ≤ 3/10 ∧ (3 : ℚ)/10 ≤ 1) ∧
    (analyze demoDetector id
      { hasFilePart := true, filename := "img.png", analysis_type := "image" }).1 =
      Response.imageResult (imageVerdict (3/10)) ((1 - 3/10) * 100) ((3/10 : ℚ) * 100)
        (imageExplanation (3/10)) (staticUrl ("uploads/" ++ id "img.png"))
        ((some "static/processed/img_highlight.png").map
          fun q => staticUrl ("processed/" ++ basename q)) ∧
    (imageVerdict (3/10) = "DeepFake Detected" ↔ (3 : ℚ)/10 > 1/2) ∧
    ((3 : ℚ)/10 = 1/2 → imageVerdict (3/10) = "Likely Authentic") :=
  c1_image_probability_and_verdict demoDetector id
    { hasFilePart := true, filename := "img.png", analysis_type := "image" }
    (3/10) (some "static/processed/img_highlight.png")
    demoDetector_conformant rfl (by decide) (by decide) (by decide) rfl rfl

/-- Claim C2 (engine modelled from the spec, `model.py` absent): for every
document, the ELA score lies in `[0,100]` and the verdict is
"Suspicious Forgery" exactly when the score strictly exceeds the single
named threshold constant `FORGERY_THRESHOLD`. -/
theorem c2_document_score_and_verdict (img : List Nat) (outDir name : String) :
    0 ≤ (analyze_document_forgery_spec img outDir name).1 ∧
    (analyze_document_forgery_spec img outDir name).1 ≤ 100 ∧
    ((analyze_document_forgery_spec img outDir name).2.1 = "Suspicious Forgery" ↔
      (analyze_document_forgery_spec img outDir name).1 > FORGERY_THRESHOLD) := by
  refine ⟨?_, ?_, ?_⟩
  · show (0 : ℚ) ≤ elaScore ELA_QUALITY ELA_SCALE img
    unfold elaScore
    exact le_min (by norm_num) (le_max_left 0 _)
  · show elaScore ELA_QUALITY ELA_SCALE img ≤ 100
    unfold elaScore
    exact min_le_left _ _
  · show forgeryVerdict (elaScore ELA_QUALITY ELA_SCALE img) = "Suspicious Forgery" ↔
      elaScore ELA_QUALITY ELA_SCALE img > FORGERY_THRESHOLD
    unfold forgeryVerdict
    split
    · simpa using ‹elaScore ELA_QUALITY ELA_SCALE img > FORGERY_THRESHOLD›
    · simp_all

/-- Every prefix of the per-page loop yields one entry per page. -/
theorem analyzePages_length {Page : Type} (r : Page → List Nat) (o n : String) :
    ∀ (s : Nat) (ps : List Page), (analyzePages r o n s ps).length = ps.length := by
  intro s ps
  induction ps generalizing s with
  | nil => rfl
  | cons page rest ih => simp [analyzePages, ih]

/-- The entry at index `i` of the per-page loop started at page number `s`
carries page number `s + i`. -/
theorem analyzePages_page_number {Page : Type} (r : Page → List Nat) (o n : String) :
    ∀ (ps : List Page) (s i : Nat) (h : i < (analyzePages r o n s ps).length),
      ((analyzePages r o n s ps).get ⟨i, h⟩).page_number = s + i := by
  intro ps
  induction ps with
  | nil => intro s i h; simp [analyzePages] at h
  | cons page rest ih =>
    intro s i h
    cases i with
    | zero => simp [analyzePages]
    | succ j =>
      have hj : j < (analyzePages r o n (s + 1) rest).length := by
        have hl := analyzePages_length r o n (s + 1) rest
        simp [analyzePages, analyzePages_length] at h
        omega
      have := ih (s + 1) j hj
      simp only [analyzePages, List.get_cons_succ]
      rw [this]
      omega

/-- Claim C3 (engine modelled from the spec, `model.py` absent): a PDF with
`N` pages yields exactly `N` page results whose `page_number` values are
`1..N`, contiguous and in physical page order; a zero-page PDF yields the
empty sequence rather than an error. -/
theorem c3_pdf_page_results {Page : Type} (rasterize : Page → List Nat)
    (pages : List Page) (outDir name : String) :
    (analyze_pdf_forgery_spec rasterize pages outDir name).length = pages.length ∧
    (∀ i (h : i < (analyze_pdf_forgery_spec rasterize pages outDir name).length),
      ((analyze_pdf_forgery_spec rasterize pages outDir name).get ⟨i, h⟩).page_number
        = i + 1) ∧
    (pages = [] → analyze_pdf_forgery_spec rasterize pages outDir name = []) := by
  refine ⟨analyzePages_length rasterize outDir name 1 pages, ?_, ?_⟩
  · intro i h
    rw [Nat.add_comm i 1]
    exact analyzePages_page_number rasterize outDir name pages 1 i h
  · intro hnil
    subst hnil
    rfl

/-- Witness for C3 on a concrete three-page PDF. -/
theorem c3_witness :
    (analyze_pdf_forgery_spec id demoPdfPages "static/processed" "doc.pdf").length = 3 ∧
    ((analyze_pdf_forgery_spec id demoPdfPages "static/processed" "doc.pdf").get
      ⟨1, by decide⟩).page_number = 2 := by
  constructor
  · exact (c3_pdf_page_results id demoPdfPages "static/processed" "doc.pdf").1
  · exact (c3_pdf_page_results id demoPdfPages "static/processed" "doc.pdf").2.1 1 (by decide)

/-- Claim C4 (engine modelled from the spec, `model.py` absent): with the
recompression quality and amplification scale fixed as constants, two runs
of the document analysis on the same input bytes produce an identical
score, verdict and byte-identical analyzed artifact; the result does not
depend on the run context. -/
theorem c4_ela_determinism (r1 r2 : Nat) (img1 img2 : List Nat)
    (outDir name : String) (h : img1 = img2) :
    documentAnalysisRun r1 img1 outDir name = documentAnalysisRun r2 img2 outDir name := by
  subst h
  rfl

/-- Witness for C4 on a concrete image and two distinct run contexts. -/
theorem c4_witness :
    documentAnalysisRun 0 [5, 200] "static/processed" "doc.png" =
      documentAnalysisRun 17 [5, 200] "static/processed" "doc.png" :=
  c4_ela_determinism 0 17 [5, 200] [5, 200] "static/processed" "doc.png" rfl

/-- Claim C5: a PDF upload requesting the "image" analysis type is rejected
with the specific 400 error of app.py line 58 and no engine operation is
invoked. -/
theorem c5_pdf_image_request_rejected
    (d : HybridDeepFakeDetector) (sf : String → String) (req : Request)
    (hfile : req.hasFilePart = true)
    (hname : req.filename ≠ "")
    (hallowed : allowed_file req.filename = true)
    (hext : extOf (sf req.filename) = "pdf")
    (htype : req.analysis_type = "image") :
    analyze d sf req =
      (Response.error "DeepFake analysis is for images (JPG, PNG), not PDFs." 400, []) := by
  simp [analyze, hfile, hname, htype, hallowed, hext]

/-- Witness for C5 at a concrete request. -/
theorem c5_witness :
    analyze demoDetector id
      { hasFilePart := true, filename := "scan.pdf", analysis_type := "image" } =
      (Response.error "DeepFake analysis is for images (JPG, PNG), not PDFs." 400, []) :=
  c5_pdf_image_request_rejected demoDetector id
    { hasFilePart := true, filename := "scan.pdf", analysis_type := "image" }
    rfl (by decide) (by decide) (by decide) rfl

/-- Claim C6: a request whose filename fails the extension allow-list, or
whose analysis type is missing, is rejected with one of the specific
user-facing validation errors and the engine is never invoked. -/
theorem c6_validation_rejected_before_engine
    (d : HybridDeepFakeDetector) (sf : String → String) (req : Request)
    (hfile : req.hasFilePart = true)
    (hreject : allowed_file req.filename = false ∨ req.analysis_type = "") :
    (analyze d sf req).2 = [] ∧ (analyze d sf req).1 ∈ validationErrors := by
  by_cases h1 : req.filename = ""
  · constructor <;> simp [analyze, hfile, h1, validationErrors]
  · by_cases h2 : req.analysis_type = ""
    · constructor <;> simp [analyze, hfile, h1, h2, validationErrors]
    · have h3 : allowed_file req.filename = false := hreject.resolve_right h2
      constructor <;> simp [analyze, hfile, h1, h2, h3, validationErrors]

/-- Witness for C6 at a concrete request with a disallowed extension. -/
theorem c6_witness :
    (analyze demoDetector id
      { hasFilePart := true, filename := "malware.exe", analysis_type := "image" }).2 = [] ∧
    (analyze demoDetector id
      { hasFilePart := true, filename := "malware.exe", analysis_type := "image" }).1 ∈
      validationErrors :=
  c6_validation_rejected_before_engine demoDetector id
    { hasFilePart := true, filename := "malware.exe", analysis_type := "image" }
    rfl (Or.inl (by decide))

/-- Claim C7: whenever the invoked engine operation fails (raises), the
handler returns the single generic internal-error response; the response is
the same for every failure, so the failure kind is not exposed. -/
theorem c7_engine_failure_generic_response
    (d : HybridDeepFakeDetector) (sf : String → String) (req : Request) (e : EngineError)
    (hfile : req.hasFilePart = true)
    (hname : req.filename ≠ "")
    (htype : req.analysis_type ≠ "")
    (hallowed : allowed_file req.filename = true)
    (hfail :
      (extOf (sf req.filename) = "pdf" ∧ req.analysis_type ≠ "image" ∧
        d.analyze_pdf_forgery (uploadPathOf (sf req.filename)) PROCESSED_FOLDER
          = Except.error e) ∨
      (extOf (sf req.filename) ≠ "pdf" ∧ req.analysis_type = "image" ∧
        d.predict_image_deepfake (uploadPathOf (sf req.filename)) PROCESSED_FOLDER
          = Except.error e) ∨
      (extOf (sf req.filename) ≠ "pdf" ∧ req.analysis_type = "document" ∧
        d.analyze_document_forgery (uploadPathOf (sf req.filename)) PROCESSED_FOLDER
          = Except.error e)) :
    (analyze d sf req).1 = internalServerError := by
  rcases hfail with ⟨hext, hni, hcall⟩ | ⟨hext, hi, hcall⟩ | ⟨hext, hdoc, hcall⟩
  · simp [analyze, hfile, hname, htype, hallowed, hext, hni, hcall]
  · simp [analyze, hfile, hname, htype, hallowed, hext, hi, hcall]
  · simp [analyze, hfile, hname, htype, hallowed, hext, hdoc, hcall]

/-- Witness for C7 at a concrete failing engine call. -/
theorem c7_witness :
    (analyze failingDetector id
      { hasFilePart := true, filename := "img.png", analysis_type := "image" }).1 =
      internalServerError :=
  c7_engine_failure_generic_response failingDetector id
    { hasFilePart := true, filename := "img.png", analysis_type := "image" }
    ⟨"cuda out of memory"⟩ rfl (by decide) (by decide) (by decide)
    (Or.inr (Or.inl ⟨by decide, rfl, rfl⟩))

/-- Claim C8: the detector weights are loaded exactly once at process
startup; after serving any sequence of requests the shared detector object
is unchanged and the load count is still one, and no single request handler
alters the application state. -/
theorem c8_detector_loaded_once (weights : HybridDeepFakeDetector)
    (sf : String → String) (reqs : List Request) :
    (serve sf (initApp weights) reqs).detector = weights ∧
    (serve sf (initApp weights) reqs).detectorLoads = 1 ∧
    ∀ (s : AppState) (req : Request), (handleRequest sf s req).2 = s := by
  have key : ∀ (rs : List Request) (s : AppState), serve sf s rs = s := by
    intro rs
    induction rs with
    | nil => intro s; rfl
    | cons r rest ih => intro s; simpa [serve, handleRequest] using ih s
  exact ⟨by rw [key]; rfl, by rw [key]; rfl, fun s req => rfl⟩

/-- Claim C9: dispatch for PDF files happens on the filename extension
before the analysis-type switch: a PDF upload with any non-empty analysis
type other than "image" (even an unrecognized one) runs the PDF engine path
and never receives the "Invalid analysis type" rejection. -/
theorem c9_pdf_dispatch_precedes_type_switch
    (d : HybridDeepFakeDetector) (sf : String → String) (req : Request)
    (hfile : req.hasFilePart = true)
    (hname : req.filename ≠ "")
    (htype : req.analysis_type ≠ "")
    (hnimg : req.analysis_type ≠ "image")
    (hallowed : allowed_file req.filename = true)
    (hext : extOf (sf req.filename) = "pdf") :
    (analyze d sf req).2 = [EngineCall.pdfCall] ∧
    (analyze d sf req).1 ≠ Response.error "Invalid analysis type specified." 400 := by
  cases hcall : d.analyze_pdf_forgery (uploadPathOf (sf req.filename)) PROCESSED_FOLDER with
  | ok rs =>
    constructor <;> simp [analyze, hfile, hname, htype, hnimg, hallowed, hext, hcall]
  | error e =>
    constructor <;>
      simp [analyze, hfile, hname, htype, hnimg, hallowed, hext, hcall, internalServerError]

/-- Witness for C9 with the unrecognized analysis type "foo". -/
theorem c9_witness :
    (analyze demoDetector id
      { hasFilePart := true, filename := "doc.pdf", analysis_type := "foo" }).2 =
      [EngineCall.pdfCall] ∧
    (analyze demoDetector id
      { hasFilePart := true, filename := "doc.pdf", analysis_type := "foo" }).1 ≠
      Response.error "Invalid analysis type specified." 400 :=
  c9_pdf_dispatch_precedes_type_switch demoDetector id
    { hasFilePart := true, filename := "doc.pdf", analysis_type := "foo" }
    rfl (by decide) (by decide) (by decide) (by decide) (by decide)

/-- Claim C10 counterexample: the claim as stated is false of the program.
app.py lines 79-80 compute the scores in IEEE binary64 doubles; at the
machine-representable probability `p0 ≈ 1e-10` (a valid probability in
`[0,1]`) the computed `real_score + fake_score` is
`7036874417766399 * 2 ^ -46 = 99.99999999999999`, not exactly 100. -/
theorem c10_float_counterexample :
    0 ≤ F64.toRat p0 ∧ F64.toRat p0 ≤ 1 ∧
    F64.add (real_score_f64 p0) (fake_score_f64 p0) = ⟨7036874417766399, -46⟩ ∧
    F64.toRat ⟨7036874417766399, -46⟩ ≠ 100 := by
  refine ⟨?_, ?_, by decide, ?_⟩
  · rw [p0, F64.toRat]
    norm_num [show Int.toNat 86 = 86 from rfl]
  · rw [p0, F64.toRat]
    norm_num [show Int.toNat 86 = 86 from rfl]
  · rw [F64.toRat]
    norm_num [show Int.toNat 46 = 46 from rfl]

/-- Claim C10 (amended): in the image branch the response carries
`real_score = (1 - p) * 100` and `fake_score = p * 100`, and these sum to
exactly 100 in exact (infinite-precision) arithmetic; under the program's
IEEE-double evaluation the computed sum can deviate from 100 (see the
counterexample above). -/
theorem c10_scores_sum_to_hundred
    (d : HybridDeepFakeDetector) (sf : String → String) (req : Request)
    (p : ℚ) (hp : Option String)
    (hfile : req.hasFilePart = true)
    (hname : req.filename ≠ "")
    (hallowed : allowed_file req.filename = true)
    (hext : extOf (sf req.filename) ≠ "pdf")
    (htype : req.analysis_type = "image")
    (hengine : d.predict_image_deepfake (uploadPathOf (sf req.filename)) PROCESSED_FOLDER
      = Except.ok (p, hp)) :
    (analyze d sf req).1 =
      Response.imageResult (imageVerdict p) ((1 - p) * 100) (p * 100)
        (imageExplanation p) (staticUrl ("uploads/" ++ sf req.filename))
        (hp.map fun q => staticUrl ("processed/" ++ basename q)) ∧
    (1 - p) * 100 + p * 100 = 100 := by
  constructor
  · simp [analyze, hfile, hname, htype, hallowed, hext, hengine]
  · ring

/-- Witness for C10 at a concrete request and detector. -/
theorem c10_witness :
    (analyze demoDetector id
      { hasFilePart := true, filename := "photo.jpg", analysis_type := "image" }).1 =
      Response.imageResult (imageVerdict (3/10)) ((1 - 3/10) * 100) ((3/10 : ℚ) * 100)
        (imageExplanation (3/10)) (staticUrl ("uploads/" ++ id "photo.jpg"))
        ((some "static/processed/img_highlight.png").map
          fun q => staticUrl ("processed/" ++ basename q)) ∧
    ((1 : ℚ) - 3/10) * 100 + (3/10) * 100 = 100 :=
  c10_scores_sum_to_hundred demoDetector id
    { hasFilePart := true, filename := "photo.jpg", analysis_type := "image" }
    (3/10) (some "static/processed/img_highlight.png")
    rfl (by decide) (by decide) (by decide) rfl rfl

end ImageModel
